import Mathlib

/-!
Shallow embedding of `src/monitor.py` (server-health-checker): the
`APIMonitor` class with its health checker (`check_api_health`), notifier
(`send_telegram_message`) and polling loop (`monitor`), together with
theorems settling the specification claims about them.

Network effects are made explicit: each iteration receives the outcome the
HTTP layer would have produced (a status-code response, a timeout, a
connection error, or another exception), and the embedded functions compute
exactly what the Python code computes from that outcome.  Logging is an
observable side effect in the source but carries no data dependency, so it
is not modelled.
-/

/-- Outcome of the single `self.session.get(self.api_url)` call inside
`check_api_health`, as discriminated by its `except` clauses: a response
carrying a status code, `requests.exceptions.Timeout`,
`requests.exceptions.ConnectionError`, another
`requests.exceptions.RequestException` with its message, or any other
exception with its message. -/
inductive HttpOutcome where
  | response (code : Nat)
  | timeout
  | connectionError
  | requestException (msg : String)
  | otherException (msg : String)
deriving DecidableEq

/-- Embedding of `APIMonitor.check_api_health` (monitor.py lines 34-67).
Every branch of the Python function, including every `except` clause,
returns the tuple `(is_healthy, status_code, message)`; no exception
escapes to the caller, which the embedding reflects by being a total
function on all outcomes. -/
def check_api_health (o : HttpOutcome) : Bool × Nat × String :=
  match o with
  | HttpOutcome.response code =>
      if code = 200 then
        (true, code, "API is responding normally")
      else
        (false, code, "API returned status " ++ toString code)
  | HttpOutcome.timeout => (false, 0, "API request timed out")
  | HttpOutcome.connectionError => (false, 0, "Failed to connect to API")
  | HttpOutcome.requestException e => (false, 0, "Request failed: " ++ e)
  | HttpOutcome.otherException e => (false, 0, "Unexpected error: " ++ e)

/-- A `requests.Session` object as the code uses it: `APIMonitor.__init__`
stores the plain attribute assignment `self.session.timeout = 30`
(monitor.py lines 31-32). -/
structure Session where
  timeout : Option Nat

/-- An HTTP GET request as issued on the wire: the URL it targets and the
timeout actually attached to it. -/
structure HttpGetRequest where
  url : String
  timeout : Option Nat
deriving DecidableEq

/-- Model of `requests.Session.get`: the issued request carries the
`timeout` keyword argument of the call (here `t`, `none` when the caller
passes no such argument).  The `requests` library never consults a
`timeout` attribute stored on the `Session` object, so the request built by
`get` does not depend on `s.timeout`. -/
def Session.get (s : Session) (url : String) (t : Option Nat) : HttpGetRequest :=
  { url := url, timeout := t }

/-- The session built by `APIMonitor.__init__` (monitor.py lines 31-32):
`requests.Session()` followed by `self.session.timeout = 30`. -/
def init_session : Session :=
  { timeout := some 30 }

/-- The GET requests issued by one call of `check_api_health`: the single
call `self.session.get(self.api_url)` at monitor.py line 43, executed once
whatever the outcome (no retry), with no `timeout` argument. -/
def check_api_health_requests (api_url : String) : List HttpGetRequest :=
  [init_session.get api_url none]

/-- Outcome of the `requests.post` call inside `send_telegram_message`: a
response with a status code, or any exception with its message (the final
`except Exception` clause). -/
inductive PostOutcome where
  | response (code : Nat)
  | exception (msg : String)
deriving DecidableEq

/-- The POST request `send_telegram_message` issues (monitor.py lines
83-92): URL parameterized by the bot token, JSON payload with exactly the
fields `chat_id`, `text` and `parse_mode`, and the `timeout=10` keyword. -/
structure TelegramPost where
  url : String
  chat_id : String
  text : String
  parse_mode : String
  timeout : Nat
deriving DecidableEq

/-- Embedding of `APIMonitor.send_telegram_message` (monitor.py lines
69-101).  Returns the POST request issued (`none` when the guard
`if not self.telegram_bot_token or not self.telegram_chat_id` returns
early, since Python string truthiness makes `not s` true exactly for the
empty string) together with the boolean result.  Every failure path
returns `false`; the `except Exception` clause means no exception escapes,
which the embedding reflects by being a total function. -/
def send_telegram_message (telegram_bot_token telegram_chat_id message : String)
    (o : PostOutcome) : Option TelegramPost × Bool :=
  if telegram_bot_token.isEmpty || telegram_chat_id.isEmpty then
    (none, false)
  else
    let telegram_url :=
      "https://api.telegram.org/bot" ++ telegram_bot_token ++ "/sendMessage"
    let req : TelegramPost :=
      { url := telegram_url
        chat_id := telegram_chat_id
        text := message
        parse_mode := "HTML"
        timeout := 10 }
    match o with
    | PostOutcome.response code => (some req, code == 200)
    | PostOutcome.exception _ => (some req, false)

/-- A notification rendered and sent by the monitor loop: the two
`telegram_message` f-string templates at monitor.py lines 123-129
("Server is down") and 139-145 ("Server is back online"), each carrying
the URL, the status code, the message from the check, and the
timestamp. -/
inductive Notification where
  | down (url : String) (status_code : Nat) (message : String) (timestamp : String)
  | backOnline (url : String) (status_code : Nat) (message : String) (timestamp : String)
deriving DecidableEq

/-- Whether a notification is a "Server is down" notification. -/
def Notification.isDown : Notification → Bool
  | Notification.down _ _ _ _ => true
  | Notification.backOnline _ _ _ _ => false

/-- Whether a notification is a "Server is back online" notification. -/
def Notification.isBackOnline : Notification → Bool
  | Notification.down _ _ _ _ => false
  | Notification.backOnline _ _ _ _ => true

/-- Inputs the environment supplies to one iteration of the monitor loop:
the outcome of the HTTP GET, the string `datetime.now()` renders to, and
the boolean `send_telegram_message` returns for a notification sent in this
iteration (used by the code only to choose a log line). -/
structure IterInput where
  outcome : HttpOutcome
  timestamp : String
  sendOk : Bool
deriving DecidableEq

/-- One iteration of the body of the `while True` loop in
`APIMonitor.monitor` (monitor.py lines 117-153), on its normal path:
obtain `(is_healthy, status_code, message)` from `check_api_health`; if
not healthy, set `previous_healthy = False` and send a "down"
notification unconditionally; if healthy and `previous_healthy` is false,
send a "back online" notification and set `previous_healthy = True`;
otherwise send nothing.  Returns the notifications sent this iteration and
the new value of `previous_healthy`.  The result of
`send_telegram_message` (`inp.sendOk`) only selects between two log lines
and feeds into nothing returned. -/
def monitor_step (api_url : String) (previous_healthy : Bool) (inp : IterInput) :
    List Notification × Bool :=
  match check_api_health inp.outcome with
  | (is_healthy, status_code, message) =>
    if is_healthy = false then
      ([Notification.down api_url status_code message inp.timestamp], false)
    else if previous_healthy = false then
      ([Notification.backOnline api_url status_code message inp.timestamp], true)
    else
      ([], previous_healthy)

/-- The monitor loop run over a finite list of iteration inputs, starting
from a given `previous_healthy`: the list of per-iteration notification
lists.  `APIMonitor.monitor` initializes `previous_healthy = True`
(monitor.py line 113) before the loop. -/
def monitor_run (api_url : String) (previous_healthy : Bool) :
    List IterInput → List (List Notification)
  | [] => []
  | inp :: rest =>
      (monitor_step api_url previous_healthy inp).1 ::
        monitor_run api_url (monitor_step api_url previous_healthy inp).2 rest

/-- The value of `previous_healthy` at the start of each iteration of the
run. -/
def monitor_states (api_url : String) (previous_healthy : Bool) :
    List IterInput → List Bool
  | [] => []
  | inp :: rest =>
      previous_healthy ::
        monitor_states api_url (monitor_step api_url previous_healthy inp).2 rest

/-- Default iteration input used only as the irrelevant `List.getD`
fallback in statements that index into a run. -/
def dfltInput : IterInput :=
  { outcome := HttpOutcome.timeout, timestamp := "", sendOk := false }

/-- What happens to the loop in one pass of the `try`/`except` at
monitor.py lines 116-160: the body runs normally on some iteration input,
or a `KeyboardInterrupt` arrives, or some other unexpected exception is
raised. -/
inductive IterEvent where
  | normal (inp : IterInput)
  | keyboardInterrupt
  | unexpectedError (msg : String)
deriving DecidableEq

/-- State of the loop in `APIMonitor.monitor`: the `previous_healthy`
variable plus whether the loop has exited (`break`). -/
structure LoopState where
  previous_healthy : Bool
  stopped : Bool
deriving DecidableEq

/-- One pass of the `while True` loop with its exception handling
(monitor.py lines 115-160): a normal pass runs `monitor_step` and sleeps;
`except KeyboardInterrupt` logs "Monitoring stopped by user" and breaks;
`except Exception` logs the error, sleeps, and continues with the state
unchanged.  A stopped loop does nothing further. -/
def loop_iter (api_url : String) (s : LoopState) (ev : IterEvent) :
    LoopState × List Notification :=
  if s.stopped then (s, [])
  else
    match ev with
    | IterEvent.normal inp =>
        (⟨(monitor_step api_url s.previous_healthy inp).2, false⟩,
          (monitor_step api_url s.previous_healthy inp).1)
    | IterEvent.keyboardInterrupt => (⟨s.previous_healthy, true⟩, [])
    | IterEvent.unexpectedError _ => (⟨s.previous_healthy, false⟩, [])

/-- C3: the health checker returns `is_healthy = true` exactly for status
code 200; for every response it reports the received status code in the
tuple, and a 503 response is classified as unhealthy with code 503. -/
theorem health_classification_by_status (code : Nat) :
    ((check_api_health (HttpOutcome.response code)).1 = true ↔ code = 200) ∧
    (check_api_health (HttpOutcome.response code)).2.1 = code ∧
    check_api_health (HttpOutcome.response 503) =
      (false, 503, "API returned status 503") := by
  refine ⟨?_, ?_, ?_⟩
  · by_cases h : code = 200 <;> simp [check_api_health, h]
  · by_cases h : code = 200 <;> simp [check_api_health, h]
  · rfl

/-- C4: a timeout and a connection failure are both classified as unhealthy
with status code 0, with distinct reason messages, and both are returned as
ordinary tuples (the corresponding `except` clauses swallow the
exception). -/
theorem timeout_and_connection_classified_distinctly :
    check_api_health HttpOutcome.timeout = (false, 0, "API request timed out") ∧
    check_api_health HttpOutcome.connectionError =
      (false, 0, "Failed to connect to API") ∧
    "API request timed out" ≠ "Failed to connect to API" := by
  refine ⟨rfl, rfl, by decide⟩

/-- An iteration sends a "back online" notification exactly when the
previous recorded state is unhealthy and the current check is healthy. -/
lemma step_any_backOnline (api_url : String) (prev : Bool) (inp : IterInput) :
    ((monitor_step api_url prev inp).1.any Notification.isBackOnline = true) ↔
      (prev = false ∧ (check_api_health inp.outcome).1 = true) := by
  rcases h : check_api_health inp.outcome with ⟨ih, sc, msg⟩
  cases ih <;> cases prev <;>
    simp [monitor_step, h, Notification.isBackOnline]

/-- An unhealthy check sends exactly one notification, a "down" one,
whatever the previous state. -/
lemma step_down (api_url : String) (prev : Bool) (inp : IterInput)
    (h : (check_api_health inp.outcome).1 = false) :
    (monitor_step api_url prev inp).1.countP Notification.isDown = 1 ∧
      (monitor_step api_url prev inp).1.length = 1 := by
  rcases hc : check_api_health inp.outcome with ⟨ih, sc, msg⟩
  rw [hc] at h
  simp only at h
  subst h
  simp [monitor_step, hc, Notification.isDown]

/-- A healthy check with a healthy previous recorded state sends
nothing. -/
lemma step_silent (api_url : String) (prev : Bool) (inp : IterInput)
    (hp : prev = true) (hh : (check_api_health inp.outcome).1 = true) :
    (monitor_step api_url prev inp).1 = [] := by
  rcases hc : check_api_health inp.outcome with ⟨ih, sc, msg⟩
  rw [hc] at hh
  simp only at hh
  subst hh; subst hp
  simp [monitor_step, hc]

/-- The value of `previous_healthy` after an iteration is the check's
`is_healthy` flag. -/
lemma step_state (api_url : String) (prev : Bool) (inp : IterInput) :
    (monitor_step api_url prev inp).2 = (check_api_health inp.outcome).1 := by
  rcases hc : check_api_health inp.outcome with ⟨ih, sc, msg⟩
  cases ih <;> cases prev <;> simp [monitor_step, hc]

/-- The notifications of the i-th iteration of a run are those of one
`monitor_step` at the i-th recorded state and the i-th input. -/
lemma monitor_run_getD (api_url : String) (inputs : List IterInput)
    (prev : Bool) (i : Nat) (hi : i < inputs.length) :
    (monitor_run api_url prev inputs).getD i [] =
      (monitor_step api_url ((monitor_states api_url prev inputs).getD i true)
        (inputs.getD i dfltInput)).1 := by
  induction inputs generalizing prev i with
  | nil => cases hi
  | cons a rest ih =>
    cases i with
    | zero => simp [monitor_run, monitor_states]
    | succ n =>
      simp only [monitor_run, monitor_states, List.getD_cons_succ]
      exact ih _ _ (Nat.lt_of_succ_lt_succ hi)

/-- C1: starting from `previous_healthy = true`, an iteration of the
monitor loop sends a "back online" notification if and only if the
recorded state entering that iteration is unhealthy and the current check
is healthy; a healthy check with a healthy recorded state sends nothing at
all; and no "back online" notification is sent on the first check. -/
theorem back_online_edge_triggered (api_url : String) (inputs : List IterInput)
    (i : Nat) (hi : i < inputs.length) :
    (((monitor_run api_url true inputs).getD i []).any Notification.isBackOnline = true ↔
      ((monitor_states api_url true inputs).getD i true = false ∧
        (check_api_health (inputs.getD i dfltInput).outcome).1 = true)) ∧
    (((monitor_states api_url true inputs).getD i true = true ∧
        (check_api_health (inputs.getD i dfltInput).outcome).1 = true) →
      (monitor_run api_url true inputs).getD i [] = []) ∧
    ((monitor_run api_url true inputs).getD 0 []).any Notification.isBackOnline = false := by
  refine ⟨?_, ?_, ?_⟩
  · rw [monitor_run_getD api_url inputs true i hi]
    exact step_any_backOnline api_url _ _
  · rintro ⟨h1, h2⟩
    rw [monitor_run_getD api_url inputs true i hi]
    exact step_silent api_url _ _ h1 h2
  · cases inputs with
    | nil => rfl
    | cons a rest =>
      rw [monitor_run_getD api_url (a :: rest) true 0 (Nat.succ_pos _)]
      have hst : (monitor_states api_url true (a :: rest)).getD 0 true = true := by
        simp [monitor_states]
      rw [hst]
      cases hb : (monitor_step api_url true ((a :: rest).getD 0 dfltInput)).1.any
          Notification.isBackOnline
      · rfl
      · have h := ((step_any_backOnline api_url true _).mp hb).1
        exact absurd h (by decide)

/-- Witness for C1 at a concrete run: a connection error followed by a 200
response, inspected at the second iteration. -/
theorem back_online_edge_triggered_witness :
    (1 < ([⟨HttpOutcome.connectionError, "t1", true⟩,
           ⟨HttpOutcome.response 200, "t2", true⟩] : List IterInput).length) ∧
    ((((monitor_run "u" true [⟨HttpOutcome.connectionError, "t1", true⟩,
          ⟨HttpOutcome.response 200, "t2", true⟩]).getD 1 []).any
            Notification.isBackOnline = true ↔
        ((monitor_states "u" true [⟨HttpOutcome.connectionError, "t1", true⟩,
            ⟨HttpOutcome.response 200, "t2", true⟩]).getD 1 true = false ∧
          (check_api_health (([⟨HttpOutcome.connectionError, "t1", true⟩,
            ⟨HttpOutcome.response 200, "t2", true⟩] : List IterInput).getD 1
              dfltInput).outcome).1 = true)) ∧
      (((monitor_states "u" true [⟨HttpOutcome.connectionError, "t1", true⟩,
            ⟨HttpOutcome.response 200, "t2", true⟩]).getD 1 true = true ∧
          (check_api_health (([⟨HttpOutcome.connectionError, "t1", true⟩,
            ⟨HttpOutcome.response 200, "t2", true⟩] : List IterInput).getD 1
              dfltInput).outcome).1 = true) →
        (monitor_run "u" true [⟨HttpOutcome.connectionError, "t1", true⟩,
          ⟨HttpOutcome.response 200, "t2", true⟩]).getD 1 [] = []) ∧
      ((monitor_run "u" true [⟨HttpOutcome.connectionError, "t1", true⟩,
          ⟨HttpOutcome.response 200, "t2", true⟩]).getD 0 []).any
            Notification.isBackOnline = false) :=
  ⟨by decide,
    back_online_edge_triggered "u"
      [⟨HttpOutcome.connectionError, "t1", true⟩,
       ⟨HttpOutcome.response 200, "t2", true⟩] 1 (by decide)⟩

/-- C2: every iteration whose check is unhealthy sends exactly one
notification, a "down" one, whatever the previous recorded state — so a
run of consecutive unhealthy outcomes re-notifies on every iteration. -/
theorem down_notified_every_unhealthy_poll (api_url : String)
    (previous_healthy : Bool) (inputs : List IterInput) (i : Nat)
    (hi : i < inputs.length)
    (hu : (check_api_health (inputs.getD i dfltInput).outcome).1 = false) :
    ((monitor_run api_url previous_healthy inputs).getD i []).countP
        Notification.isDown = 1 ∧
    ((monitor_run api_url previous_healthy inputs).getD i []).length = 1 := by
  rw [monitor_run_getD api_url inputs previous_healthy i hi]
  exact step_down api_url _ _ hu

/-- Witness for C2: a 503 response at the first iteration of a run whose
previous state is healthy still sends one "down" notification. -/
theorem down_notified_every_unhealthy_poll_witness :
    (0 < ([⟨HttpOutcome.response 503, "t", false⟩] : List IterInput).length) ∧
    ((check_api_health (([⟨HttpOutcome.response 503, "t", false⟩] :
        List IterInput).getD 0 dfltInput).outcome).1 = false) ∧
    (((monitor_run "u" true [⟨HttpOutcome.response 503, "t", false⟩]).getD 0
        []).countP Notification.isDown = 1 ∧
      ((monitor_run "u" true [⟨HttpOutcome.response 503, "t", false⟩]).getD 0
        []).length = 1) :=
  ⟨by decide, by decide,
    down_notified_every_unhealthy_poll "u" true
      [⟨HttpOutcome.response 503, "t", false⟩] 0 (by decide) (by decide)⟩

/-- C5 (code bug): each call of `check_api_health` issues exactly one GET
to the configured URL and performs no retry, but the request carries no
timeout at all: `__init__` stores 30 in a `timeout` attribute on the
session object, which `Session.get` never consults, and the
`self.session.get(self.api_url)` call passes no `timeout` argument, so no
30-second bound is attached to the request. -/
theorem single_get_without_request_timeout (api_url : String) :
    check_api_health_requests api_url = [init_session.get api_url none] ∧
    (check_api_health_requests api_url).length = 1 ∧
    (init_session.get api_url none).url = api_url ∧
    init_session.timeout = some 30 ∧
    (init_session.get api_url none).timeout = none :=
  ⟨rfl, rfl, rfl, rfl, rfl⟩

/-- C6: the notifier always returns a boolean (no exception escapes its
`except Exception` clause); the result is `true` exactly when both the bot
token and the chat ID are non-empty and the provider responds with status
200, and `false` exactly when the token or chat ID is empty, the provider
responds with a non-200 status, or a transport error occurs. -/
theorem notify_returns_bool_never_raises (t c m : String) (o : PostOutcome) :
    ((send_telegram_message t c m o).2 = true ↔
      (t.isEmpty = false ∧ c.isEmpty = false ∧ o = PostOutcome.response 200)) ∧
    ((send_telegram_message t c m o).2 = false ↔
      (t.isEmpty = true ∨ c.isEmpty = true ∨ o ≠ PostOutcome.response 200)) := by
  cases o with
  | response code =>
    by_cases ht : t.isEmpty = true <;> by_cases hc : c.isEmpty = true <;>
      by_cases h200 : code = 200 <;>
        simp [send_telegram_message, ht, hc, h200]
  | exception msg =>
    by_cases ht : t.isEmpty = true <;> by_cases hc : c.isEmpty = true <;>
      simp [send_telegram_message, ht, hc]

/-- C7: with a non-empty bot token and chat ID the notifier issues one POST
whose URL embeds the bot token, whose payload holds exactly the chat ID,
the message text and the `HTML` parse mode, and whose timeout is 10
seconds. -/
theorem notify_request_shape (t c m : String) (o : PostOutcome)
    (ht : t.isEmpty = false) (hc : c.isEmpty = false) :
    (send_telegram_message t c m o).1 =
      some { url := "https://api.telegram.org/bot" ++ t ++ "/sendMessage"
             chat_id := c
             text := m
             parse_mode := "HTML"
             timeout := 10 } := by
  cases o <;> simp [send_telegram_message, ht, hc]

/-- Witness for C7 at a concrete token, chat ID and message. -/
theorem notify_request_shape_witness :
    ("botTOKEN" : String).isEmpty = false ∧ ("42" : String).isEmpty = false ∧
    (send_telegram_message "botTOKEN" "42" "hello"
        (PostOutcome.response 200)).1 =
      some { url := "https://api.telegram.org/bot" ++ "botTOKEN" ++ "/sendMessage"
             chat_id := "42"
             text := "hello"
             parse_mode := "HTML"
             timeout := 10 } :=
  ⟨rfl, rfl,
    notify_request_shape "botTOKEN" "42" "hello" (PostOutcome.response 200)
      rfl rfl⟩

/-- C8: on the outcome sequence 200, 200, timeout, 200, 200 from the
initial state, the loop sends nothing on checks one and two, exactly one
"down" notification carrying status code 0 on check three, exactly one
"back online" notification on check four, and nothing on check five. -/
theorem scenario_five_checks (api_url t1 t2 t3 t4 t5 : String)
    (o1 o2 o3 o4 o5 : Bool) :
    monitor_run api_url true
      [⟨HttpOutcome.response 200, t1, o1⟩, ⟨HttpOutcome.response 200, t2, o2⟩,
       ⟨HttpOutcome.timeout, t3, o3⟩, ⟨HttpOutcome.response 200, t4, o4⟩,
       ⟨HttpOutcome.response 200, t5, o5⟩] =
      [[], [],
       [Notification.down api_url 0 "API request timed out" t3],
       [Notification.backOnline api_url 200 "API is responding normally" t4],
       []] := by
  rfl

/-- C9: a loop pass hit by an unexpected exception keeps `previous_healthy`
unchanged, sends nothing and leaves the loop running; a running loop stops
only on a `KeyboardInterrupt` event. -/
theorem loop_continues_until_interrupt (api_url : String) (s : LoopState)
    (ev : IterEvent) (msg : String) (hs : s.stopped = false) :
    ((loop_iter api_url s ev).1.stopped = true →
        ev = IterEvent.keyboardInterrupt) ∧
    (loop_iter api_url s (IterEvent.unexpectedError msg)).1.previous_healthy =
      s.previous_healthy ∧
    (loop_iter api_url s (IterEvent.unexpectedError msg)).1.stopped = false ∧
    (loop_iter api_url s (IterEvent.unexpectedError msg)).2 = [] := by
  refine ⟨?_, ?_, ?_, ?_⟩
  · intro h
    cases ev with
    | normal inp => simp [loop_iter, hs] at h
    | keyboardInterrupt => rfl
    | unexpectedError m => simp [loop_iter, hs] at h
  · simp [loop_iter, hs]
  · simp [loop_iter, hs]
  · simp [loop_iter, hs]

/-- Witness for C9 at a concrete running state and interrupt event. -/
theorem loop_continues_until_interrupt_witness :
    (⟨true, false⟩ : LoopState).stopped = false ∧
    (((loop_iter "u" ⟨true, false⟩ IterEvent.keyboardInterrupt).1.stopped = true →
        IterEvent.keyboardInterrupt = IterEvent.keyboardInterrupt) ∧
      (loop_iter "u" ⟨true, false⟩
          (IterEvent.unexpectedError "boom")).1.previous_healthy = true ∧
      (loop_iter "u" ⟨true, false⟩
          (IterEvent.unexpectedError "boom")).1.stopped = false ∧
      (loop_iter "u" ⟨true, false⟩ (IterEvent.unexpectedError "boom")).2 = []) :=
  ⟨rfl,
    loop_continues_until_interrupt "u" ⟨true, false⟩
      IterEvent.keyboardInterrupt "boom" rfl⟩

/-- C10: at the end of any normally completing iteration,
`previous_healthy` equals the check's `is_healthy` flag, and the whole
iteration result does not depend on whether the notification delivery
succeeded. -/
theorem previous_healthy_tracks_health_flag (api_url : String)
    (previous_healthy : Bool) (o : HttpOutcome) (ts : String) (ok okAlt : Bool) :
    (monitor_step api_url previous_healthy ⟨o, ts, ok⟩).2 =
      (check_api_health o).1 ∧
    monitor_step api_url previous_healthy ⟨o, ts, ok⟩ =
      monitor_step api_url previous_healthy ⟨o, ts, okAlt⟩ :=
  ⟨step_state api_url previous_healthy ⟨o, ts, ok⟩, rfl⟩
